import Mathlib

/-!
Verification development for the booktures backend PDF ingestion pipeline.

Shallow embedding of:
  * `backend/services/pdf_service.py` — `save_pdf`, `extract_text_by_page`,
    `delete_pdf`, `get_pdf_info`;
  * `backend/api/routes.py` — `upload_pdf`, `get_pdf`, `delete_uploaded_pdf`;
  * the `Book` and `Page` ORM rows of `backend/models`.

Conventions of the embedding:
  * raw file bytes are `List Nat` (one entry per byte);
  * the filesystem (the storage directory) is an association list from path
    to stored file; a stored file keeps both its raw bytes and the abstract
    document `pdfplumber.open` would produce on them (`PdfFile`), since the
    Python code re-opens the stored file for extraction and for metadata;
  * a physical page of an open document is a `PageExtract`: either the pair
    of results of `page.extract_text()` (an optional string) and
    `page.extract_tables()` (modelled by the number of tables), or a
    failure carrying the exception message — this models the per-page
    `try/except` in `extract_text_by_page`;
  * Python exceptions become `Except` values: `ValueError` is
    `PdfError.validation`, `IOError` is `PdfError.ioError`,
    `FileNotFoundError` is `PdfError.notFound`, any other `pdfplumber`
    failure is `PdfError.extraction`;
  * SQLAlchemy sessions: `db.add` stages rows, `db.commit` makes the staged
    rows part of the `DB` value, `db.rollback` discards the staged rows and
    keeps the last committed `DB` value.  Failure of the page-saving
    `commit` is an execution choice and is passed in as the boolean
    `pageSaveFails`; likewise a read failure inside `get_pdf_info` is the
    boolean `infoReadFails`.
-/

/-- Environment-derived configuration of `pdf_service.py` (lines 11-14):
`PDF_STORAGE_PATH`, `MAX_FILE_SIZE` (bytes) and `MAX_PAGES`. -/
structure Config where
  pdf_storage_path : String
  max_file_size : Nat
  max_pages : Nat
  deriving DecidableEq

/-- The defaults: `storage/pdfs`, 200 MiB, 500 pages. -/
def defaultConfig : Config :=
  { pdf_storage_path := "storage/pdfs"
    max_file_size := 200 * 1024 * 1024
    max_pages := 500 }

/-- Outcome of `page.extract_text()` / `page.extract_tables()` on one
physical page, or the exception raised while processing that page. -/
inductive PageExtract where
  | ok (text : Option String) (tables : Nat)
  | fail (msg : String)
  deriving DecidableEq

/-- The abstract document `pdfplumber.open` yields: its pages in document
order and its container metadata. -/
structure PdfDoc where
  pages : List PageExtract
  metadata : List (String × String)
  deriving DecidableEq

/-- What opening a stored file does: succeed with a document, or raise a
container-level parse error. -/
inductive PdfFile where
  | openable (doc : PdfDoc)
  | corrupt (msg : String)
  deriving DecidableEq

/-- A file on the storage directory: raw bytes plus their parse. -/
structure StoredFile where
  bytes : List Nat
  parsed : PdfFile
  deriving DecidableEq

/-- The storage directory: path-to-file association list. -/
def Storage : Type := List (String × StoredFile)

instance : DecidableEq Storage := by
  unfold Storage
  infer_instance

/-- `os.path.exists` style lookup: first entry with the given path. -/
def stLookup : Storage → String → Option StoredFile
  | [], _ => none
  | (q, f) :: rest, p => if q = p then some f else stLookup rest p

/-- Whether a path exists in storage. -/
def stHas (st : Storage) (p : String) : Bool :=
  (stLookup st p).isSome

/-- Errors raised by the pdf service; the constructors mirror Python
exception classes (`ValueError`, `IOError`, `FileNotFoundError`, and any
other extraction-time exception). -/
inductive PdfError where
  | validation (msg : String)
  | ioError (msg : String)
  | notFound (msg : String)
  | extraction (msg : String)
  deriving DecidableEq

/-- One entry of the list returned by `extract_text_by_page`: the dict
`{page_number, text, has_tables}` on success, `{page_number, text, error}`
on a per-page failure.  Optional fields model dict-key absence. -/
structure PageResult where
  page_number : Nat
  text : String
  has_tables : Option Bool
  error : Option String
  deriving DecidableEq

/- ---------------------------------------------------------------------- -/
/- String helpers mirroring the Python primitives used by the source.      -/
/- ---------------------------------------------------------------------- -/

/-- `listStarts pre cs` is true when `pre` is an initial segment of `cs`. -/
def listStarts : List Char → List Char → Bool
  | [], _ => true
  | _ :: _, [] => false
  | a :: as, b :: bs => if a = b then listStarts as bs else false

/-- Python `str.endswith`: `strEndsWith s t` is `s.endswith(t)`. -/
def strEndsWith (s t : String) : Bool :=
  listStarts t.data.reverse s.data.reverse

/-- Last `/`-separated component of a path, as `pathlib.Path(...).name`. -/
def lastCompAux (cur : List Char) : List Char → List Char
  | [] => cur
  | c :: rest => if c = '/' then lastCompAux [] rest else lastCompAux (cur ++ [c]) rest

/-- Index of the last `.` in a character list (`str.rfind`). -/
def lastDotIdx : List Char → Option Nat
  | [] => none
  | c :: rest =>
    match lastDotIdx rest with
    | some i => some (i + 1)
    | none => if c = '.' then some 0 else none

/-- `pathlib.Path(filename).suffix`: the extension of the final component,
empty when the final component has no dot, starts with its only dot, or
ends with the dot. -/
def pathSuffix (filename : String) : String :=
  let name := lastCompAux [] filename.data
  match lastDotIdx name with
  | none => ""
  | some i => if 0 < i ∧ i < name.length - 1 then String.mk (name.drop i) else ""

/-- Python `str.lower` restricted to what `Char.toLower` covers. -/
def strLower (s : String) : String :=
  String.mk (s.data.map Char.toLower)

/-- Drop leading whitespace from a character list. -/
def dropLeadingWs : List Char → List Char
  | [] => []
  | c :: rest => if c.isWhitespace then dropLeadingWs rest else c :: rest

/-- Python `str.strip()`: remove leading and trailing whitespace. -/
def pyStrip (s : String) : String :=
  String.mk ((dropLeadingWs (dropLeadingWs s.data).reverse).reverse)

/-- The four signature bytes `b"%PDF"`. -/
def pdfMagic : List Nat := [37, 80, 68, 70]

/- ---------------------------------------------------------------------- -/
/- pdf_service.py                                                          -/
/- ---------------------------------------------------------------------- -/

/-- The unique storage path `os.path.join(PDF_STORAGE_PATH, f"{uuid}_{filename}")`. -/
def mkStorePath (cfg : Config) (uuid filename : String) : String :=
  cfg.pdf_storage_path ++ "/" ++ uuid ++ "_" ++ filename

/-- `save_pdf` (pdf_service.py lines 16-63).  `uuid` stands for the
`uuid.uuid4()` value generated for this call.  The storage value is
returned on every path so that "no file written" is observable; the three
validations run in source order (size, extension with
`ALLOWED_EXTENSIONS = {".pdf"}`, signature) before the write. -/
def save_pdf (cfg : Config) (st : Storage) (file_bytes : List Nat)
    (parsed : PdfFile) (filename : String) (uuid : String) :
    Storage × Except PdfError String :=
  if file_bytes.length > cfg.max_file_size then
    let mb := cfg.max_file_size / 1024 / 1024
    (st, .error (.validation s!"File size exceeds {mb}MB limit"))
  else if strLower (pathSuffix filename) ≠ ".pdf" then
    (st, .error (.validation "Invalid file type. Only .pdf allowed"))
  else if ¬ (file_bytes.take 4 = pdfMagic) then
    (st, .error (.validation "File is not a valid PDF"))
  else
    ((mkStorePath cfg uuid filename, ⟨file_bytes, parsed⟩) :: st,
      .ok (mkStorePath cfg uuid filename))

/-- The dict built for one page of the extraction loop
(pdf_service.py lines 89-108), `i` being the 0-based `enumerate` index. -/
def mkPageResult (i : Nat) : PageExtract → PageResult
  | .ok t tables =>
    { page_number := i + 1
      text := pyStrip (t.getD "")
      has_tables := some (decide (0 < tables))
      error := none }
  | .fail msg =>
    { page_number := i + 1
      text := ""
      has_tables := none
      error := some msg }

/-- The extraction loop `for i, page in enumerate(pdf.pages)` starting at
index `i`. -/
def extractPages (i : Nat) : List PageExtract → List PageResult
  | [] => []
  | p :: rest => mkPageResult i p :: extractPages (i + 1) rest

/-- `extract_text_by_page` (pdf_service.py lines 65-121): existence check,
open, page-count ceiling, then the per-page loop whose failures are
isolated into the result entries. -/
def extract_text_by_page (cfg : Config) (st : Storage) (pdf_path : String) :
    Except PdfError (List PageResult) :=
  match stLookup st pdf_path with
  | none => .error (.notFound s!"PDF not found: {pdf_path}")
  | some f =>
    match f.parsed with
    | .corrupt msg => .error (.extraction msg)
    | .openable doc =>
      if doc.pages.length > cfg.max_pages then
        .error (.validation s!"PDF exceeds maximum {cfg.max_pages} pages")
      else
        .ok (extractPages 0 doc.pages)

/-- `delete_pdf` (pdf_service.py lines 123-141): remove the path when it
exists and report whether a removal happened. -/
def delete_pdf (st : Storage) (file_path : String) : Storage × Bool :=
  if stHas st file_path then
    (st.filter (fun e => !(e.1 == file_path)), true)
  else
    (st, false)

/-- Metadata returned by `get_pdf_info`. -/
structure PdfInfo where
  page_count : Nat
  metadata : List (String × String)
  deriving DecidableEq

/-- `get_pdf_info` (pdf_service.py lines 143-161): best-effort; any failure
(missing file, corrupt container, or an IO failure while reading, modelled
by `readFails`) yields `none`. -/
def get_pdf_info (st : Storage) (pdf_path : String) (readFails : Bool) :
    Option PdfInfo :=
  if readFails then none
  else
    match stLookup st pdf_path with
    | none => none
    | some f =>
      match f.parsed with
      | .corrupt _ => none
      | .openable doc => some { page_count := doc.pages.length, metadata := doc.metadata }

/- ---------------------------------------------------------------------- -/
/- models/book.py, models/page.py and the database session                 -/
/- ---------------------------------------------------------------------- -/

/-- A row of the `books` table (models/book.py). -/
structure BookRow where
  id : Int
  title : String
  author : String
  total_pages : Nat
  description : String
  deriving DecidableEq

/-- A row of the `pages` table (models/page.py). -/
structure PageRow where
  id : Int
  book_id : Int
  page_number : Nat
  text : String
  pdf_path : String
  deriving DecidableEq

/-- The committed database state, with the autoincrement counters the
engine would use for the next inserted `Book` and `Page` rows. -/
structure DB where
  books : List BookRow
  pages : List PageRow
  nextBookId : Int
  nextPageId : Int
  deriving DecidableEq

/-- A fresh database. -/
def emptyDB : DB := ⟨[], [], 1, 1⟩

/- ---------------------------------------------------------------------- -/
/- api/routes.py                                                           -/
/- ---------------------------------------------------------------------- -/

/-- `fastapi.HTTPException`: status code and detail. -/
structure HTTPError where
  status_code : Nat
  detail : String
  deriving DecidableEq

/-- A JSON value of the `upload_pdf` response dict. -/
inductive RVal where
  | s (v : String)
  | i (v : Int)
  | n (v : Nat)
  | null
  | infoV (v : PdfInfo)
  deriving DecidableEq

/-- Python truthiness `x or d` on an optional string parameter: `None` and
`""` both fall back to the default. -/
def pyOrStr (o : Option String) (d : String) : String :=
  match o with
  | none => d
  | some s => if s = "" then d else s

/-- The `Book` constructed at routes.py lines 71-76 for an upload with no
(truthy) `book_id`, autoincrement id included. -/
def newBookRow (db : DB) (filename : String) (title author : Option String)
    (npages : Nat) : BookRow :=
  { id := db.nextBookId
    title := pyOrStr title filename
    author := pyOrStr author "Unknown"
    total_pages := npages
    description := s!"Uploaded from {filename}" }

/-- The `Page` rows staged by the loop at routes.py lines 95-103, with
autoincrement ids starting at `startId`. -/
def mkPages (bid : Int) (pdf_path : String) (startId : Int) :
    List PageResult → List PageRow
  | [] => []
  | r :: rs =>
    { id := startId
      book_id := bid
      page_number := r.page_number
      text := r.text
      pdf_path := pdf_path } :: mkPages bid pdf_path (startId + 1) rs

/-- The success response dict of `upload_pdf` (routes.py lines 120-129).
Note `"metadata": pdf_info` is always a key of the dict; a `None`
metadata becomes the JSON value `null`. -/
def successResponse (filename : String) (bid : Int) (pdf_path : String)
    (pages_data : List PageResult) (info : Option PdfInfo) :
    List (String × RVal) :=
  [("status", .s "success"),
   ("filename", .s filename),
   ("book_id", .i bid),
   ("pdf_path", .s pdf_path),
   ("total_pages", .n pages_data.length),
   ("pages_with_errors", .n (pages_data.filter (fun r => r.error.isSome)).length),
   ("metadata", match info with | none => .null | some v => .infoV v),
   ("message", .s s!"Successfully uploaded and extracted {pages_data.length} pages")]

/-- routes.py lines 92-129: stage one `Page` row per extracted page against
the resolved book `bid` (the database seen here, `db1`, already holds the
book commit), commit, and build the success response.  If the commit
raises (`pageSaveFails`), the session is rolled back to `db1`, the stored
file is deleted and a 500 is raised. -/
def uploadWithBook (st1 : Storage) (db1 : DB) (bid : Int)
    (pdf_path filename : String) (pages_data : List PageResult)
    (pageSaveFails infoReadFails : Bool) :
    Storage × DB × Except HTTPError (List (String × RVal)) :=
  if pageSaveFails then
    ((delete_pdf st1 pdf_path).1, db1,
      .error ⟨500, "Failed to save pages to database"⟩)
  else
    let db2 : DB :=
      { db1 with
        pages := db1.pages ++ mkPages bid pdf_path db1.nextPageId pages_data
        nextPageId := db1.nextPageId + pages_data.length }
    let info := get_pdf_info st1 pdf_path infoReadFails
    (st1, db2, .ok (successResponse filename bid pdf_path pages_data info))

/-- routes.py lines 70-81: create and commit a new `Book`, then save the
pages against its id. -/
def uploadNewBook (st1 : Storage) (db : DB) (pdf_path filename : String)
    (title author : Option String) (pages_data : List PageResult)
    (pageSaveFails infoReadFails : Bool) :
    Storage × DB × Except HTTPError (List (String × RVal)) :=
  let nb := newBookRow db filename title author pages_data.length
  let db1 : DB := { db with books := db.books ++ [nb], nextBookId := db.nextBookId + 1 }
  uploadWithBook st1 db1 nb.id pdf_path filename pages_data pageSaveFails infoReadFails

/-- routes.py lines 69-129: resolve the target book.  `if not book_id:`
is Python truthiness, so both `None` and `0` take the creation branch;
otherwise the book is looked up and a missing book deletes the stored
file and raises 404. -/
def uploadResolveBook (st1 : Storage) (db : DB) (pdf_path filename : String)
    (book_id : Option Int) (title author : Option String)
    (pages_data : List PageResult) (pageSaveFails infoReadFails : Bool) :
    Storage × DB × Except HTTPError (List (String × RVal)) :=
  match book_id with
  | none =>
    uploadNewBook st1 db pdf_path filename title author pages_data
      pageSaveFails infoReadFails
  | some bid =>
    if bid = 0 then
      uploadNewBook st1 db pdf_path filename title author pages_data
        pageSaveFails infoReadFails
    else
      match db.books.find? (fun b => b.id == bid) with
      | none =>
        ((delete_pdf st1 pdf_path).1, db,
          .error ⟨404, s!"Book with ID {bid} not found"⟩)
      | some _ =>
        uploadWithBook st1 db bid pdf_path filename pages_data
          pageSaveFails infoReadFails

/-- `upload_pdf` (routes.py lines 20-138): filename check, store, extract
(cleaning up the stored file on extraction failure), then book resolution
and page persistence. -/
def upload_pdf (cfg : Config) (st : Storage) (db : DB) (filename : String)
    (file_bytes : List Nat) (parsed : PdfFile) (book_id : Option Int)
    (title author : Option String) (uuid : String)
    (pageSaveFails infoReadFails : Bool) :
    Storage × DB × Except HTTPError (List (String × RVal)) :=
  -- `if not file.filename.endswith('.pdf'): raise 400` (branches spelled
  -- in positive-first order)
  if strEndsWith filename ".pdf" then
    match save_pdf cfg st file_bytes parsed filename uuid with
    | (st1, .error (.validation msg)) => (st1, db, .error ⟨400, msg⟩)
    | (st1, .error _) => (st1, db, .error ⟨500, "Failed to save PDF file"⟩)
    | (st1, .ok pdf_path) =>
      match extract_text_by_page cfg st1 pdf_path with
      | .error _ =>
        ((delete_pdf st1 pdf_path).1, db,
          .error ⟨422, "Failed to extract text from PDF"⟩)
      | .ok pages_data =>
        uploadResolveBook st1 db pdf_path filename book_id title author
          pages_data pageSaveFails infoReadFails
  else
    (st, db, .error ⟨400, "Only PDF files are allowed"⟩)

/-- One entry of the `pages` array of the `get_pdf` response. -/
structure GetPageOut where
  page_id : Int
  page_number : Nat
  text : String
  deriving DecidableEq

/-- The `get_pdf` response body (routes.py lines 163-175). -/
structure GetPdfResponse where
  status : String
  book_id : Int
  total_pages : Nat
  pages : List GetPageOut
  deriving DecidableEq

/-- `ORDER BY page_number`: insert into an already sorted list. -/
def insertPage (p : PageRow) : List PageRow → List PageRow
  | [] => [p]
  | q :: rest =>
    if p.page_number < q.page_number then p :: q :: rest
    else q :: insertPage p rest

/-- `ORDER BY page_number` over a whole list (insertion sort; among equal
keys the order is unspecified in SQL, this picks one). -/
def sortPages : List PageRow → List PageRow
  | [] => []
  | p :: rest => insertPage p (sortPages rest)

/-- `get_pdf` (routes.py lines 140-184): look the book up, then return its
pages ordered by `page_number`. -/
def get_pdf (db : DB) (pdf_id : Int) : Except HTTPError GetPdfResponse :=
  match db.books.find? (fun b => b.id == pdf_id) with
  | none => .error ⟨404, s!"PDF with ID {pdf_id} not found"⟩
  | some _ =>
    let pages := sortPages (db.pages.filter (fun p => p.book_id == pdf_id))
    .ok { status := "success"
          book_id := pdf_id
          total_pages := pages.length
          pages := pages.map (fun p =>
            { page_id := p.id, page_number := p.page_number, text := p.text }) }

/-- `delete_uploaded_pdf` (routes.py lines 186-236): look the book up,
delete from disk the file referenced by the FIRST page of the unordered
page query (`pages[0].pdf_path`) when the book has any page, then delete
the page rows and the book row. -/
def delete_uploaded_pdf (st : Storage) (db : DB) (pdf_id : Int) :
    Storage × DB × Except HTTPError String :=
  match db.books.find? (fun b => b.id == pdf_id) with
  | none => (st, db, .error ⟨404, s!"PDF with ID {pdf_id} not found"⟩)
  | some _ =>
    let pages := db.pages.filter (fun p => p.book_id == pdf_id)
    let st1 :=
      match pages with
      | [] => st
      | p0 :: _ => (delete_pdf st p0.pdf_path).1
    let db1 : DB :=
      { db with
        pages := db.pages.filter (fun p => !(p.book_id == pdf_id))
        books := db.books.eraseP (fun b => b.id == pdf_id) }
    (st1, db1, .ok s!"PDF {pdf_id} and {pages.length} pages deleted")

/-- Projection used to state results about route outcomes. -/
def isOkE {α : Type} : Except HTTPError α → Bool
  | .ok _ => true
  | .error _ => false

/-- The error of a route outcome, when there is one. -/
def errOf {α : Type} : Except HTTPError α → Option HTTPError
  | .ok _ => none
  | .error e => some e

/-- The response dict of a successful `upload_pdf` outcome. -/
def respOf : Except HTTPError (List (String × RVal)) → List (String × RVal)
  | .ok r => r
  | .error _ => []

/-- The pages array of a successful `get_pdf` outcome. -/
def getPagesOf : Except HTTPError GetPdfResponse → List GetPageOut
  | .ok r => r.pages
  | .error _ => []

/-- `(page_number, text)` pairs produced by `extract_text_by_page`, empty
on failure; used to state the round-trip property. -/
def extractPairsAt (cfg : Config) (st : Storage) (pdf_path : String) :
    List (Nat × String) :=
  match extract_text_by_page cfg st pdf_path with
  | .ok rs => rs.map (fun r => (r.page_number, r.text))
  | .error _ => []

/-- `pdf_path` of the first page row the delete route sees, if any. -/
def firstPagePath (db : DB) (pdf_id : Int) : Option String :=
  (db.pages.filter (fun p => p.book_id == pdf_id)).head?.map (fun p => p.pdf_path)

/- ---------------------------------------------------------------------- -/
/- Helper lemmas                                                           -/
/- ---------------------------------------------------------------------- -/

theorem mkPageResult_page_number (i : Nat) (p : PageExtract) :
    (mkPageResult i p).page_number = i + 1 := by
  cases p <;> rfl

theorem extractPages_length (l : List PageExtract) (i : Nat) :
    (extractPages i l).length = l.length := by
  induction l generalizing i with
  | nil => rfl
  | cons p rest ih => simp [extractPages, ih]

theorem extractPages_get (l : List PageExtract) (i k : Nat) (hk : k < l.length)
    (hk2 : k < (extractPages i l).length) :
    (extractPages i l).get ⟨k, hk2⟩ = mkPageResult (i + k) (l.get ⟨k, hk⟩) := by
  induction l generalizing i k with
  | nil => exact absurd hk (Nat.not_lt_zero k)
  | cons p rest ih =>
    cases k with
    | zero => simp [extractPages]
    | succ k =>
      have hk' : k < rest.length := Nat.lt_of_succ_lt_succ hk
      have hidx : i + (k + 1) = (i + 1) + k := by omega
      simpa [extractPages, hidx] using ih (i + 1) k hk' (by
        simpa [extractPages_length] using hk')

theorem extractPages_mem_lt (l : List PageExtract) (i : Nat) :
    ∀ r ∈ extractPages i l, i < r.page_number := by
  induction l generalizing i with
  | nil => intro r hr; simp [extractPages] at hr
  | cons p rest ih =>
    intro r hr
    rcases List.mem_cons.mp hr with h | h
    · subst h; rw [mkPageResult_page_number]; omega
    · have := ih (i + 1) r h; omega

theorem extractPages_pairwise (l : List PageExtract) (i : Nat) :
    (extractPages i l).Pairwise (fun a b => a.page_number < b.page_number) := by
  induction l generalizing i with
  | nil => exact List.Pairwise.nil
  | cons p rest ih =>
    refine List.Pairwise.cons ?_ (ih (i + 1))
    intro r hr
    rw [mkPageResult_page_number]
    exact extractPages_mem_lt rest (i + 1) r hr

theorem extractPages_noError (l : List PageExtract) (i : Nat)
    (h : ∀ p ∈ l, ∀ msg, p ≠ PageExtract.fail msg) :
    ∀ r ∈ extractPages i l, r.error = none := by
  induction l generalizing i with
  | nil => intro r hr; simp [extractPages] at hr
  | cons p rest ih =>
    intro r hr
    rcases List.mem_cons.mp hr with hh | hh
    · subst hh
      cases p with
      | ok t tables => rfl
      | fail msg => exact absurd rfl (h _ (List.mem_cons_self _ _) msg)
    · exact ih (i + 1) (fun q hq => h q (List.mem_cons_of_mem p hq)) r hh

/- ---------------------------------------------------------------------- -/
/- C2                                                                      -/
/- ---------------------------------------------------------------------- -/

/-- C2: on an openable document whose page count is within the ceiling,
`extract_text_by_page` returns one result per physical page, numbered
`1..N` in order; a failing page `k` yields `text = ""`, `error` set to its
message and no `has_tables` field, while all other pages still appear;
and on a document with no failing page no result carries an error. -/
theorem c2_extract_per_page_isolation (cfg : Config) (st : Storage)
    (pdf_path : String) (f : StoredFile) (doc : PdfDoc)
    (hl : stLookup st pdf_path = some f) (hp : f.parsed = .openable doc)
    (hle : doc.pages.length ≤ cfg.max_pages) :
    ∃ results,
      extract_text_by_page cfg st pdf_path = .ok results ∧
      results.length = doc.pages.length ∧
      (∀ k (hk : k < results.length),
        (results.get ⟨k, hk⟩).page_number = k + 1) ∧
      (∀ k (hk : k < doc.pages.length), ∀ msg,
        doc.pages.get ⟨k, hk⟩ = .fail msg →
        ∃ hk2 : k < results.length,
          (results.get ⟨k, hk2⟩).text = "" ∧
          (results.get ⟨k, hk2⟩).error = some msg ∧
          (results.get ⟨k, hk2⟩).has_tables = none) ∧
      ((∀ p ∈ doc.pages, ∀ msg, p ≠ PageExtract.fail msg) →
        ∀ r ∈ results, r.error = none) := by
  refine ⟨extractPages 0 doc.pages, ?_, extractPages_length doc.pages 0, ?_, ?_, ?_⟩
  · simp only [extract_text_by_page, hl, hp]
    rw [if_neg (by omega)]
  · intro k hk
    have hk' : k < doc.pages.length := by
      rw [extractPages_length] at hk; exact hk
    rw [extractPages_get doc.pages 0 k hk' hk, mkPageResult_page_number]
    omega
  · intro k hk msg hfail
    have hk2 : k < (extractPages 0 doc.pages).length := by
      rw [extractPages_length]; exact hk
    refine ⟨hk2, ?_⟩
    rw [extractPages_get doc.pages 0 k hk hk2, hfail]
    exact ⟨rfl, rfl, rfl⟩
  · exact extractPages_noError doc.pages 0

/-- Concrete instantiation of the C2 theorem: a two-page document whose
second page fails to extract. -/
def wDoc2 : PdfDoc := ⟨[.ok (some " hello ") 1, .fail "boom"], [("Title", "T")]⟩

/-- The stored file holding `wDoc2`. -/
def wFile2 : StoredFile := ⟨pdfMagic, .openable wDoc2⟩

/-- Storage with just that file at path `p`. -/
def wSt2 : Storage := [("p", wFile2)]

theorem c2_witness :
    stLookup wSt2 "p" = some wFile2 ∧
    wFile2.parsed = .openable wDoc2 ∧
    wDoc2.pages.length ≤ defaultConfig.max_pages ∧
    (∃ results,
      extract_text_by_page defaultConfig wSt2 "p" = .ok results ∧
      results.length = wDoc2.pages.length ∧
      (∀ k (hk : k < results.length),
        (results.get ⟨k, hk⟩).page_number = k + 1) ∧
      (∀ k (hk : k < wDoc2.pages.length), ∀ msg,
        wDoc2.pages.get ⟨k, hk⟩ = .fail msg →
        ∃ hk2 : k < results.length,
          (results.get ⟨k, hk2⟩).text = "" ∧
          (results.get ⟨k, hk2⟩).error = some msg ∧
          (results.get ⟨k, hk2⟩).has_tables = none) ∧
      ((∀ p ∈ wDoc2.pages, ∀ msg, p ≠ PageExtract.fail msg) →
        ∀ r ∈ results, r.error = none)) :=
  ⟨rfl, rfl, by decide,
    c2_extract_per_page_isolation defaultConfig wSt2 "p" wFile2 wDoc2 rfl rfl (by decide)⟩

/- ---------------------------------------------------------------------- -/
/- C4                                                                      -/
/- ---------------------------------------------------------------------- -/

/-- C4: `save_pdf` on bytes that do not start with `%PDF`, or that exceed
the configured maximum size, raises a `ValueError` (`ValidationError`) and
leaves the storage untouched — nothing is written. -/
theorem c4_store_validation_no_write (cfg : Config) (st : Storage)
    (file_bytes : List Nat) (parsed : PdfFile) (filename uuid : String)
    (h : ¬ (file_bytes.take 4 = pdfMagic) ∨ cfg.max_file_size < file_bytes.length) :
    (save_pdf cfg st file_bytes parsed filename uuid).1 = st ∧
    ∃ msg, (save_pdf cfg st file_bytes parsed filename uuid).2 =
      .error (.validation msg) := by
  simp only [save_pdf]
  by_cases h1 : file_bytes.length > cfg.max_file_size
  · rw [if_pos h1]
    exact ⟨rfl, _, rfl⟩
  · rw [if_neg h1]
    by_cases h2 : strLower (pathSuffix filename) ≠ ".pdf"
    · rw [if_pos h2]
      exact ⟨rfl, _, rfl⟩
    · rw [if_neg h2]
      by_cases h3 : ¬ (file_bytes.take 4 = pdfMagic)
      · rw [if_pos h3]
        exact ⟨rfl, _, rfl⟩
      · rcases h with hpdf | hsz
        · exact absurd hpdf h3
        · exact absurd hsz h1

theorem c4_witness :
    (¬ (([0, 0, 0, 0] : List Nat).take 4 = pdfMagic) ∨
      defaultConfig.max_file_size < ([0, 0, 0, 0] : List Nat).length) ∧
    ((save_pdf defaultConfig [] [0, 0, 0, 0] (.corrupt "x") "a.pdf" "u").1 = [] ∧
      ∃ msg, (save_pdf defaultConfig [] [0, 0, 0, 0] (.corrupt "x") "a.pdf" "u").2 =
        .error (.validation msg)) :=
  ⟨Or.inl (by decide),
    c4_store_validation_no_write defaultConfig [] [0, 0, 0, 0] (.corrupt "x") "a.pdf" "u"
      (Or.inl (by decide))⟩

/- ---------------------------------------------------------------------- -/
/- C5                                                                      -/
/- ---------------------------------------------------------------------- -/

/-- C5: `extract_text_by_page` on an openable document with more pages
than the configured ceiling raises a `ValueError` (`ValidationError`), so
no `PageResult` list is returned. -/
theorem c5_page_ceiling_validation (cfg : Config) (st : Storage)
    (pdf_path : String) (f : StoredFile) (doc : PdfDoc)
    (hl : stLookup st pdf_path = some f) (hp : f.parsed = .openable doc)
    (hgt : doc.pages.length > cfg.max_pages) :
    extract_text_by_page cfg st pdf_path =
      .error (.validation s!"PDF exceeds maximum {cfg.max_pages} pages") := by
  simp only [extract_text_by_page, hl, hp]
  rw [if_pos hgt]

/-- A 501-page document, exceeding the default ceiling of 500. -/
def wDoc501 : PdfDoc := ⟨List.replicate 501 (.ok none 0), []⟩

/-- The stored file holding `wDoc501`. -/
def wFile501 : StoredFile := ⟨pdfMagic, .openable wDoc501⟩

/-- Storage with just that file at path `p`. -/
def wSt501 : Storage := [("p", wFile501)]

theorem c5_witness :
    stLookup wSt501 "p" = some wFile501 ∧
    wFile501.parsed = .openable wDoc501 ∧
    wDoc501.pages.length > defaultConfig.max_pages ∧
    extract_text_by_page defaultConfig wSt501 "p" =
      .error (.validation s!"PDF exceeds maximum {defaultConfig.max_pages} pages") := by
  have hgt : wDoc501.pages.length > defaultConfig.max_pages := by
    show (List.replicate 501 (PageExtract.ok none 0)).length > 500
    rw [List.length_replicate]
    omega
  exact ⟨rfl, rfl, hgt,
    c5_page_ceiling_validation defaultConfig wSt501 "p" wFile501 wDoc501 rfl rfl hgt⟩

/- ---------------------------------------------------------------------- -/
/- Storage lemmas                                                          -/
/- ---------------------------------------------------------------------- -/

theorem stLookup_filter_self (st : List (String × StoredFile)) (q : String) :
    stLookup (st.filter (fun e => !(e.1 == q))) q = none := by
  induction st with
  | nil => rfl
  | cons a rest ih =>
    rcases a with ⟨a1, a2⟩
    by_cases ha : a1 = q
    · simpa [List.filter_cons, ha] using ih
    · simpa [List.filter_cons, ha, stLookup] using ih

theorem stLookup_filter_ne (st : List (String × StoredFile)) (p q : String)
    (h : ¬ p = q) :
    stLookup (st.filter (fun e => !(e.1 == q))) p = stLookup st p := by
  induction st with
  | nil => rfl
  | cons a rest ih =>
    rcases a with ⟨a1, a2⟩
    by_cases ha : a1 = q
    · subst ha
      have hne : ¬ a1 = p := fun hh => h hh.symm
      simpa [List.filter_cons, stLookup, hne] using ih
    · by_cases hap : a1 = p
      · simp [List.filter_cons, ha, stLookup, hap, h]
      · simpa [List.filter_cons, ha, stLookup, hap] using ih

theorem stLookup_delete_pdf_self (st : Storage) (q : String) :
    stLookup (delete_pdf st q).1 q = none := by
  unfold delete_pdf
  by_cases hh : stHas st q = true
  · rw [if_pos hh]
    exact stLookup_filter_self st q
  · rw [if_neg hh]
    unfold stHas at hh
    exact Option.not_isSome_iff_eq_none.mp (by simpa using hh)

theorem stLookup_delete_pdf_other (st : Storage) (p q : String) (h : ¬ p = q) :
    stLookup (delete_pdf st q).1 p = stLookup st p := by
  unfold delete_pdf
  by_cases hh : stHas st q = true
  · rw [if_pos hh]
    exact stLookup_filter_ne st p q h
  · rw [if_neg hh]

/- ---------------------------------------------------------------------- -/
/- Shared concrete inputs for counterexamples and witnesses                -/
/- ---------------------------------------------------------------------- -/

/-- A small configuration (storage directory `s`). -/
def wCfg : Config := ⟨"s", 1000000, 500⟩

/-- A one-page document whose page extracts to `hello`. -/
def wDoc1 : PdfDoc := ⟨[.ok (some "hello") 0], []⟩

/-- The parse of the uploaded bytes. -/
def wParsed1 : PdfFile := .openable wDoc1

/-- The file `save_pdf` stores for those bytes. -/
def wFile1 : StoredFile := ⟨pdfMagic, wParsed1⟩

/- ---------------------------------------------------------------------- -/
/- C1                                                                      -/
/- ---------------------------------------------------------------------- -/

/-- C1 counterexample: a valid one-page upload with no `book_id` whose
page-saving commit fails.  The route reports a failure, yet the final
database still holds the Book row created for this upload — the Book
commit at routes.py line 78 happened in an earlier transaction, so it is
not part of the rollback.  This contradicts the claim that no Book from
the failed upload remains visible. -/
theorem c1_counterexample :
    isOkE (upload_pdf wCfg [] emptyDB "b.pdf" pdfMagic wParsed1 none none none
      "u" true false).2.2 = false ∧
    errOf (upload_pdf wCfg [] emptyDB "b.pdf" pdfMagic wParsed1 none none none
      "u" true false).2.2 = some ⟨500, "Failed to save pages to database"⟩ ∧
    (upload_pdf wCfg [] emptyDB "b.pdf" pdfMagic wParsed1 none none none
      "u" true false).2.1.books.length = 1 := by
  decide

/-- C1 (amended): when any Page insertion fails during an otherwise-valid
upload with no `book_id`, the staged Page rows are rolled back (the final
pages table is unchanged), the stored file is deleted and a 500 error is
reported — but the newly created Book row, committed before page
insertion, remains in the database. -/
theorem c1_book_commit_survives_page_failure (cfg : Config) (st st1 : Storage)
    (db : DB) (filename : String) (file_bytes : List Nat) (parsed : PdfFile)
    (title author : Option String) (uuid pdf_path : String)
    (pages_data : List PageResult) (infoReadFails : Bool)
    (hfn : strEndsWith filename ".pdf" = true)
    (hsv : save_pdf cfg st file_bytes parsed filename uuid = (st1, .ok pdf_path))
    (hex : extract_text_by_page cfg st1 pdf_path = .ok pages_data) :
    upload_pdf cfg st db filename file_bytes parsed none title author uuid
        true infoReadFails =
      ((delete_pdf st1 pdf_path).1,
        { db with
          books := db.books ++ [newBookRow db filename title author pages_data.length]
          nextBookId := db.nextBookId + 1 },
        .error ⟨500, "Failed to save pages to database"⟩) ∧
    stLookup (upload_pdf cfg st db filename file_bytes parsed none title author
      uuid true infoReadFails).1 pdf_path = none := by
  have hrun : upload_pdf cfg st db filename file_bytes parsed none title author
      uuid true infoReadFails =
      ((delete_pdf st1 pdf_path).1,
        { db with
          books := db.books ++ [newBookRow db filename title author pages_data.length]
          nextBookId := db.nextBookId + 1 },
        .error ⟨500, "Failed to save pages to database"⟩) := by
    unfold upload_pdf
    rw [if_pos hfn, hsv]
    dsimp only
    rw [hex]
    rfl
  refine ⟨hrun, ?_⟩
  rw [hrun]
  exact stLookup_delete_pdf_self st1 pdf_path

theorem c1_witness :
    strEndsWith "b.pdf" ".pdf" = true ∧
    save_pdf wCfg [] pdfMagic wParsed1 "b.pdf" "u" =
      ([("s/u_b.pdf", wFile1)], .ok "s/u_b.pdf") ∧
    extract_text_by_page wCfg [("s/u_b.pdf", wFile1)] "s/u_b.pdf" =
      .ok (extractPages 0 wDoc1.pages) ∧
    (upload_pdf wCfg [] emptyDB "b.pdf" pdfMagic wParsed1 none none none "u"
        true false =
      ((delete_pdf [("s/u_b.pdf", wFile1)] "s/u_b.pdf").1,
        { emptyDB with
          books := emptyDB.books ++
            [newBookRow emptyDB "b.pdf" none none (extractPages 0 wDoc1.pages).length]
          nextBookId := emptyDB.nextBookId + 1 },
        .error ⟨500, "Failed to save pages to database"⟩) ∧
      stLookup (upload_pdf wCfg [] emptyDB "b.pdf" pdfMagic wParsed1 none none
        none "u" true false).1 "s/u_b.pdf" = none) :=
  ⟨by decide, rfl, rfl,
    c1_book_commit_survives_page_failure wCfg [] [("s/u_b.pdf", wFile1)] emptyDB
      "b.pdf" pdfMagic wParsed1 none none "u" "s/u_b.pdf"
      (extractPages 0 wDoc1.pages) false (by decide) rfl rfl⟩

/- ---------------------------------------------------------------------- -/
/- C6                                                                      -/
/- ---------------------------------------------------------------------- -/

/-- C6 counterexample: `book_id = 0` refers to no existing book (the
database is empty), yet the upload does not fail with a 404: because of
the truthiness test `if not book_id:`, a brand-new book is created and the
ingest succeeds. -/
theorem c6_counterexample :
    emptyDB.books.find? (fun b => b.id == (0 : Int)) = none ∧
    isOkE (upload_pdf wCfg [] emptyDB "b.pdf" pdfMagic wParsed1 (some 0) none
      none "u" false false).2.2 = true ∧
    (upload_pdf wCfg [] emptyDB "b.pdf" pdfMagic wParsed1 (some 0) none none
      "u" false false).2.1.books.length = 1 := by
  decide

/-- C6 (amended): for every ingest call with a NONZERO `book_id` that does
not refer to an existing book, the route fails with a 404 and the stored
file is deleted before the error is reported. -/
theorem c6_missing_book_404_cleanup (cfg : Config) (st st1 : Storage)
    (db : DB) (filename : String) (file_bytes : List Nat) (parsed : PdfFile)
    (bid : Int) (title author : Option String) (uuid pdf_path : String)
    (pages_data : List PageResult) (psf inf : Bool)
    (hfn : strEndsWith filename ".pdf" = true)
    (hsv : save_pdf cfg st file_bytes parsed filename uuid = (st1, .ok pdf_path))
    (hex : extract_text_by_page cfg st1 pdf_path = .ok pages_data)
    (hbid : ¬ bid = 0)
    (hnb : db.books.find? (fun b => b.id == bid) = none) :
    upload_pdf cfg st db filename file_bytes parsed (some bid) title author
        uuid psf inf =
      ((delete_pdf st1 pdf_path).1, db,
        .error ⟨404, s!"Book with ID {bid} not found"⟩) ∧
    stLookup (upload_pdf cfg st db filename file_bytes parsed (some bid) title
      author uuid psf inf).1 pdf_path = none := by
  have hrun : upload_pdf cfg st db filename file_bytes parsed (some bid) title
      author uuid psf inf =
      ((delete_pdf st1 pdf_path).1, db,
        .error ⟨404, s!"Book with ID {bid} not found"⟩) := by
    unfold upload_pdf
    rw [if_pos hfn, hsv]
    dsimp only
    rw [hex]
    dsimp only
    unfold uploadResolveBook
    dsimp only
    rw [if_neg hbid, hnb]
  refine ⟨hrun, ?_⟩
  rw [hrun]
  exact stLookup_delete_pdf_self st1 pdf_path

theorem c6_witness :
    strEndsWith "b.pdf" ".pdf" = true ∧
    save_pdf wCfg [] pdfMagic wParsed1 "b.pdf" "u" =
      ([("s/u_b.pdf", wFile1)], .ok "s/u_b.pdf") ∧
    extract_text_by_page wCfg [("s/u_b.pdf", wFile1)] "s/u_b.pdf" =
      .ok (extractPages 0 wDoc1.pages) ∧
    ¬ (7 : Int) = 0 ∧
    emptyDB.books.find? (fun b => b.id == (7 : Int)) = none ∧
    (upload_pdf wCfg [] emptyDB "b.pdf" pdfMagic wParsed1 (some 7) none none
        "u" false false =
      ((delete_pdf [("s/u_b.pdf", wFile1)] "s/u_b.pdf").1, emptyDB,
        .error ⟨404, "Book with ID 7 not found"⟩) ∧
      stLookup (upload_pdf wCfg [] emptyDB "b.pdf" pdfMagic wParsed1 (some 7)
        none none "u" false false).1 "s/u_b.pdf" = none) :=
  ⟨by decide, rfl, rfl, by decide, rfl,
    c6_missing_book_404_cleanup wCfg [] [("s/u_b.pdf", wFile1)] emptyDB "b.pdf"
      pdfMagic wParsed1 7 none none "u" "s/u_b.pdf"
      (extractPages 0 wDoc1.pages) false false (by decide) rfl rfl
      (by decide) rfl⟩

/- ---------------------------------------------------------------------- -/
/- C7                                                                      -/
/- ---------------------------------------------------------------------- -/

/-- C7 counterexample: a fully successful ingest in which the metadata
read fails (`get_pdf_info` returns `None`).  The response dict still
CONTAINS the key `metadata`, with the JSON value `null` — it is not
omitted as the claim states. -/
theorem c7_counterexample :
    isOkE (upload_pdf wCfg [] emptyDB "b.pdf" pdfMagic wParsed1 none none none
      "u" false true).2.2 = true ∧
    ("metadata", RVal.null) ∈ respOf (upload_pdf wCfg [] emptyDB "b.pdf"
      pdfMagic wParsed1 none none none "u" false true).2.2 := by
  decide

theorem uploadWithBook_ok_metadata (st1 : Storage) (db1 : DB) (bid : Int)
    (pdf_path filename : String) (pages_data : List PageResult) (psf : Bool)
    (resp : List (String × RVal))
    (h : (uploadWithBook st1 db1 bid pdf_path filename pages_data psf
      true).2.2 = .ok resp) :
    ("metadata", RVal.null) ∈ resp := by
  unfold uploadWithBook at h
  cases psf with
  | true =>
    rw [if_pos rfl] at h
    simp at h
  | false =>
    rw [if_neg Bool.false_ne_true] at h
    dsimp only at h
    injection h with h2
    rw [← h2]
    have hinfo : get_pdf_info st1 pdf_path true = none := rfl
    rw [hinfo]
    simp [successResponse]

/-- C7 (amended): on EVERY fully successful ingest — whatever the
`book_id`, `title` and `author` parameters, so both the fresh-book branch
and the existing-book branch — in which the Storage Gateway info call
returns null, the null is tolerated and the `metadata` field is INCLUDED
in the returned summary with a null value. -/
theorem c7_null_metadata_included (cfg : Config) (st : Storage) (db : DB)
    (filename : String) (file_bytes : List Nat) (parsed : PdfFile)
    (book_id : Option Int) (title author : Option String) (uuid : String)
    (psf : Bool) (resp : List (String × RVal))
    (h : (upload_pdf cfg st db filename file_bytes parsed book_id title author
      uuid psf true).2.2 = .ok resp) :
    ("metadata", RVal.null) ∈ resp := by
  unfold upload_pdf at h
  by_cases hfn : strEndsWith filename ".pdf" = true
  · rw [if_pos hfn] at h
    rcases hsv : save_pdf cfg st file_bytes parsed filename uuid with ⟨st1, r⟩
    rw [hsv] at h
    cases r with
    | error e => cases e <;> simp at h
    | ok pdf_path =>
      dsimp only at h
      cases hex : extract_text_by_page cfg st1 pdf_path with
      | error e2 =>
        rw [hex] at h
        simp at h
      | ok pages_data =>
        rw [hex] at h
        dsimp only at h
        unfold uploadResolveBook at h
        cases book_id with
        | none =>
          dsimp only at h
          unfold uploadNewBook at h
          exact uploadWithBook_ok_metadata _ _ _ _ _ _ _ _ h
        | some bid =>
          dsimp only at h
          by_cases hb : bid = 0
          · rw [if_pos hb] at h
            unfold uploadNewBook at h
            exact uploadWithBook_ok_metadata _ _ _ _ _ _ _ _ h
          · rw [if_neg hb] at h
            cases hfind : db.books.find? (fun b => b.id == bid) with
            | none =>
              rw [hfind] at h
              simp at h
            | some b0 =>
              rw [hfind] at h
              dsimp only at h
              exact uploadWithBook_ok_metadata _ _ _ _ _ _ _ _ h
  · rw [if_neg hfn] at h
    simp at h

/-- An existing empty book with id 1, target of the C7 witness upload. -/
def wBook1 : BookRow := ⟨1, "B", "A", 0, "d"⟩

/-- Database holding only `wBook1`. -/
def wDbBook1 : DB := ⟨[wBook1], [], 2, 1⟩

theorem c7_witness :
    (upload_pdf wCfg [] wDbBook1 "b.pdf" pdfMagic wParsed1 (some 1) none none
        "u" false true).2.2 =
      .ok (successResponse "b.pdf" 1 "s/u_b.pdf" (extractPages 0 wDoc1.pages)
        none) ∧
    ("metadata", RVal.null) ∈
      successResponse "b.pdf" 1 "s/u_b.pdf" (extractPages 0 wDoc1.pages) none :=
  ⟨rfl,
    c7_null_metadata_included wCfg [] wDbBook1 "b.pdf" pdfMagic wParsed1
      (some 1) none none "u" false _ rfl⟩

/- ---------------------------------------------------------------------- -/
/- C8                                                                      -/
/- ---------------------------------------------------------------------- -/

/-- C8 counterexample: the filename `book.PDF` has extension `.pdf` under
case-insensitive comparison and is accepted by `save_pdf`'s lowercased
suffix check, yet the step-1 route validation `filename.endswith('.pdf')`
is case-SENSITIVE and rejects the request with a 400 — so the claim that
both validations accept such filenames is false. -/
theorem c8_counterexample :
    (save_pdf wCfg [] pdfMagic wParsed1 "book.PDF" "u").2 =
      .ok "s/u_book.PDF" ∧
    errOf (upload_pdf wCfg [] emptyDB "book.PDF" pdfMagic wParsed1 none none
      none "u" false false).2.2 = some ⟨400, "Only PDF files are allowed"⟩ := by
  constructor
  · rfl
  · decide

/-- C8 (amended): for a filename whose lowercased suffix is `.pdf` but
which does not end in the lowercase literal `.pdf` (e.g. one ending in
`.PDF`), the store-level extension validation accepts it (given valid size
and signature, `save_pdf` succeeds), but the step-1 filename validation of
the route is case-sensitive and rejects the request with a 400
`ValidationError` before any other work. -/
theorem c8_extension_case_sensitivity (cfg : Config) (st : Storage) (db : DB)
    (filename : String) (file_bytes : List Nat) (parsed : PdfFile)
    (book_id : Option Int) (title author : Option String) (uuid : String)
    (psf inf : Bool)
    (hsz : ¬ file_bytes.length > cfg.max_file_size)
    (hsig : file_bytes.take 4 = pdfMagic)
    (hext : strLower (pathSuffix filename) = ".pdf")
    (hfn : strEndsWith filename ".pdf" = false) :
    (save_pdf cfg st file_bytes parsed filename uuid).2 =
      .ok (mkStorePath cfg uuid filename) ∧
    upload_pdf cfg st db filename file_bytes parsed book_id title author uuid
      psf inf = (st, db, .error ⟨400, "Only PDF files are allowed"⟩) := by
  constructor
  · unfold save_pdf
    rw [if_neg hsz, if_neg (by simp [hext]), if_neg (by simp [hsig])]
  · unfold upload_pdf
    rw [if_neg (by simp [hfn])]

theorem c8_witness :
    (¬ pdfMagic.length > wCfg.max_file_size) ∧
    pdfMagic.take 4 = pdfMagic ∧
    strLower (pathSuffix "book.PDF") = ".pdf" ∧
    strEndsWith "book.PDF" ".pdf" = false ∧
    ((save_pdf wCfg [] pdfMagic wParsed1 "book.PDF" "u").2 =
      .ok (mkStorePath wCfg "u" "book.PDF") ∧
    upload_pdf wCfg [] emptyDB "book.PDF" pdfMagic wParsed1 none none none "u"
      false false = ([], emptyDB, .error ⟨400, "Only PDF files are allowed"⟩)) :=
  ⟨by decide, by decide, by decide, by decide,
    c8_extension_case_sensitivity wCfg [] emptyDB "book.PDF" pdfMagic wParsed1
      none none none "u" false false (by decide) (by decide) (by decide)
      (by decide)⟩

/- ---------------------------------------------------------------------- -/
/- C9                                                                      -/
/- ---------------------------------------------------------------------- -/

theorem uploadResolveBook_zero (st1 : Storage) (db : DB)
    (pdf_path filename : String) (title author : Option String)
    (pages_data : List PageResult) (psf inf : Bool) :
    uploadResolveBook st1 db pdf_path filename (some 0) title author
      pages_data psf inf =
    uploadResolveBook st1 db pdf_path filename none title author
      pages_data psf inf := by
  simp [uploadResolveBook]

theorem uploadNewBook_title_empty (st1 : Storage) (db : DB)
    (pdf_path filename : String) (author : Option String)
    (pages_data : List PageResult) (psf inf : Bool) :
    uploadNewBook st1 db pdf_path filename (some "") author pages_data psf inf =
    uploadNewBook st1 db pdf_path filename none author pages_data psf inf := by
  simp [uploadNewBook, newBookRow, pyOrStr]

theorem uploadNewBook_author_empty (st1 : Storage) (db : DB)
    (pdf_path filename : String) (title : Option String)
    (pages_data : List PageResult) (psf inf : Bool) :
    uploadNewBook st1 db pdf_path filename title (some "") pages_data psf inf =
    uploadNewBook st1 db pdf_path filename title none pages_data psf inf := by
  simp [uploadNewBook, newBookRow, pyOrStr]

theorem uploadResolveBook_title_empty (st1 : Storage) (db : DB)
    (pdf_path filename : String) (book_id : Option Int)
    (author : Option String) (pages_data : List PageResult) (psf inf : Bool) :
    uploadResolveBook st1 db pdf_path filename book_id (some "") author
      pages_data psf inf =
    uploadResolveBook st1 db pdf_path filename book_id none author
      pages_data psf inf := by
  cases book_id with
  | none =>
    simpa [uploadResolveBook] using
      uploadNewBook_title_empty st1 db pdf_path filename author pages_data psf inf
  | some bid =>
    by_cases hb : bid = 0
    · simpa [uploadResolveBook, hb] using
        uploadNewBook_title_empty st1 db pdf_path filename author pages_data psf inf
    · simp [uploadResolveBook, hb]

theorem uploadResolveBook_author_empty (st1 : Storage) (db : DB)
    (pdf_path filename : String) (book_id : Option Int)
    (title : Option String) (pages_data : List PageResult) (psf inf : Bool) :
    uploadResolveBook st1 db pdf_path filename book_id title (some "")
      pages_data psf inf =
    uploadResolveBook st1 db pdf_path filename book_id title none
      pages_data psf inf := by
  cases book_id with
  | none =>
    simpa [uploadResolveBook] using
      uploadNewBook_author_empty st1 db pdf_path filename title pages_data psf inf
  | some bid =>
    by_cases hb : bid = 0
    · simpa [uploadResolveBook, hb] using
        uploadNewBook_author_empty st1 db pdf_path filename title pages_data psf inf
    · simp [uploadResolveBook, hb]

theorem upload_pdf_congr (cfg : Config) (st : Storage) (db : DB)
    (filename : String) (file_bytes : List Nat) (parsed : PdfFile)
    (uuid : String) (psf inf : Bool) (b1 b2 : Option Int)
    (t1 t2 a1 a2 : Option String)
    (h : ∀ st1 pdf_path pages_data,
      uploadResolveBook st1 db pdf_path filename b1 t1 a1 pages_data psf inf =
      uploadResolveBook st1 db pdf_path filename b2 t2 a2 pages_data psf inf) :
    upload_pdf cfg st db filename file_bytes parsed b1 t1 a1 uuid psf inf =
    upload_pdf cfg st db filename file_bytes parsed b2 t2 a2 uuid psf inf := by
  unfold upload_pdf
  by_cases hfn : strEndsWith filename ".pdf" = true
  · simp only [if_pos hfn]
    rcases hsv : save_pdf cfg st file_bytes parsed filename uuid with ⟨st1, r⟩
    cases r with
    | error e => cases e <;> rfl
    | ok pdf_path =>
      dsimp only
      cases hex : extract_text_by_page cfg st1 pdf_path with
      | error e2 => rfl
      | ok pages_data => exact h st1 pdf_path pages_data
  · simp only [if_neg hfn]

/-- C9: because the route tests its optional parameters for falsiness
(`if not book_id:`, `title or ...`, `author or ...`), a `book_id` of `0`
behaves exactly like an omitted `book_id` (a brand-new book is created,
never a 404), and an empty-string `title` or `author` behaves exactly like
an omitted one (the defaults — the filename and `"Unknown"` — apply). -/
theorem c9_falsy_params_default (cfg : Config) (st : Storage) (db : DB)
    (filename : String) (file_bytes : List Nat) (parsed : PdfFile)
    (title author : Option String) (uuid : String) (psf inf : Bool) :
    upload_pdf cfg st db filename file_bytes parsed (some 0) title author uuid
        psf inf =
      upload_pdf cfg st db filename file_bytes parsed none title author uuid
        psf inf ∧
    (∀ book_id : Option Int,
      upload_pdf cfg st db filename file_bytes parsed book_id (some "") author
          uuid psf inf =
        upload_pdf cfg st db filename file_bytes parsed book_id none author
          uuid psf inf) ∧
    (∀ (book_id : Option Int) (title2 : Option String),
      upload_pdf cfg st db filename file_bytes parsed book_id title2 (some "")
          uuid psf inf =
        upload_pdf cfg st db filename file_bytes parsed book_id title2 none
          uuid psf inf) := by
  refine ⟨?_, ?_, ?_⟩
  · exact upload_pdf_congr cfg st db filename file_bytes parsed uuid psf inf
      (some 0) none title title author author
      (fun st1 pdf_path pages_data =>
        uploadResolveBook_zero st1 db pdf_path filename title author
          pages_data psf inf)
  · intro book_id
    exact upload_pdf_congr cfg st db filename file_bytes parsed uuid psf inf
      book_id book_id (some "") none author author
      (fun st1 pdf_path pages_data =>
        uploadResolveBook_title_empty st1 db pdf_path filename book_id author
          pages_data psf inf)
  · intro book_id title2
    exact upload_pdf_congr cfg st db filename file_bytes parsed uuid psf inf
      book_id book_id title2 title2 (some "") none
      (fun st1 pdf_path pages_data =>
        uploadResolveBook_author_empty st1 db pdf_path filename book_id title2
          pages_data psf inf)

/- ---------------------------------------------------------------------- -/
/- C10                                                                     -/
/- ---------------------------------------------------------------------- -/

/-- C10: `delete_uploaded_pdf` removes at most one file from storage — the
one referenced by the first returned page's `pdf_path`.  For a book with
zero pages no deletion is attempted (the storage is unchanged), and every
path other than the first page's `pdf_path` resolves in storage exactly as
before the call, so files of other uploads of the same book remain. -/
theorem c10_delete_single_file (st : Storage) (db : DB) (pdf_id : Int) :
    (db.pages.filter (fun p => p.book_id == pdf_id) = [] →
      (delete_uploaded_pdf st db pdf_id).1 = st) ∧
    (∀ path, ¬ firstPagePath db pdf_id = some path →
      stLookup (delete_uploaded_pdf st db pdf_id).1 path = stLookup st path) := by
  cases hb : db.books.find? (fun b => b.id == pdf_id) with
  | none =>
    constructor
    · intro _
      simp [delete_uploaded_pdf, hb]
    · intro path _
      simp [delete_uploaded_pdf, hb]
  | some b =>
    cases hp : db.pages.filter (fun p => p.book_id == pdf_id) with
    | nil =>
      constructor
      · intro _
        simp [delete_uploaded_pdf, hb, hp]
      · intro path _
        simp [delete_uploaded_pdf, hb, hp]
    | cons p0 rest =>
      constructor
      · intro hnil
        exact absurd hnil (List.cons_ne_nil p0 rest)
      · intro path hpath
        have hfirst : firstPagePath db pdf_id = some p0.pdf_path := by
          unfold firstPagePath
          rw [hp]
          rfl
        have hne : ¬ path = p0.pdf_path := by
          intro hh
          exact hpath (hh ▸ hfirst)
        have hres : (delete_uploaded_pdf st db pdf_id).1 =
            (delete_pdf st p0.pdf_path).1 := by
          unfold delete_uploaded_pdf
          rw [hb]
          dsimp only
          rw [hp]
        rw [hres]
        exact stLookup_delete_pdf_other st path p0.pdf_path hne

/-- Stored files at two distinct paths, for the C10 witness. -/
def wStAB : Storage := [("a", wFile1), ("b", wFile1)]

/-- A book with two pages that reference the two distinct paths. -/
def wDbAB : DB :=
  ⟨[⟨1, "T", "A", 2, "d"⟩],
   [⟨1, 1, 1, "t1", "a"⟩, ⟨2, 1, 2, "t2", "b"⟩], 2, 3⟩

/-- The same book with no pages at all. -/
def wDbNoPages : DB := ⟨[⟨1, "T", "A", 0, "d"⟩], [], 2, 1⟩

theorem c10_witness :
    (wDbNoPages.pages.filter (fun p => p.book_id == (1 : Int)) = [] ∧
      (delete_uploaded_pdf wStAB wDbNoPages 1).1 = wStAB) ∧
    (¬ firstPagePath wDbAB 1 = some "b" ∧
      stLookup (delete_uploaded_pdf wStAB wDbAB 1).1 "b" = stLookup wStAB "b") :=
  ⟨⟨by decide, (c10_delete_single_file wStAB wDbNoPages 1).1 (by decide)⟩,
   ⟨by decide, (c10_delete_single_file wStAB wDbAB 1).2 "b" (by decide)⟩⟩

/- ---------------------------------------------------------------------- -/
/- C3                                                                      -/
/- ---------------------------------------------------------------------- -/

/-- An existing book (id 1) that already owns one page from an earlier
upload, stored at path `q`. -/
def c3Book : BookRow := ⟨1, "T", "A", 1, "d"⟩

/-- The pre-existing page of `c3Book`. -/
def c3Page : PageRow := ⟨1, 1, 1, "old", "q"⟩

/-- Database holding `c3Book` with its page. -/
def c3DB : DB := ⟨[c3Book], [c3Page], 2, 2⟩

/-- A successful one-page upload into the existing book id 1. -/
def c3run : Storage × DB × Except HTTPError (List (String × RVal)) :=
  upload_pdf wCfg [] c3DB "b.pdf" pdfMagic wParsed1 (some 1) none none "u"
    false false

/-- C3 counterexample: after successfully ingesting a one-page PDF into a
book that already had a page, `getBook` returns BOTH pages, so its
`(page_number, text)` sequence does not equal the one produced by
`extract` on the stored file.  The round-trip claim fails for uploads into
a book with pre-existing pages. -/
theorem c3_counterexample :
    isOkE c3run.2.2 = true ∧
    ¬ ((getPagesOf (get_pdf c3run.2.1 1)).map (fun q => (q.page_number, q.text)) =
        extractPairsAt wCfg c3run.1 "s/u_b.pdf") := by
  decide

theorem extract_ok_inv (cfg : Config) (st : Storage) (pdf_path : String)
    (rs : List PageResult)
    (h : extract_text_by_page cfg st pdf_path = .ok rs) :
    ∃ f doc, stLookup st pdf_path = some f ∧ f.parsed = .openable doc ∧
      doc.pages.length ≤ cfg.max_pages ∧ rs = extractPages 0 doc.pages := by
  unfold extract_text_by_page at h
  cases hl : stLookup st pdf_path with
  | none => rw [hl] at h; simp at h
  | some f =>
    rw [hl] at h
    dsimp only at h
    cases hp : f.parsed with
    | corrupt m => rw [hp] at h; simp at h
    | openable doc =>
      rw [hp] at h
      dsimp only at h
      by_cases hgt : doc.pages.length > cfg.max_pages
      · rw [if_pos hgt] at h; simp at h
      · rw [if_neg hgt] at h
        refine ⟨f, doc, rfl, hp, by omega, ?_⟩
        injection h with h2
        exact h2.symm

theorem mkPages_map_pairs (bid : Int) (pdf_path : String)
    (rs : List PageResult) (i : Int) :
    ((mkPages bid pdf_path i rs).map (fun p =>
        ({ page_id := p.id, page_number := p.page_number, text := p.text } :
          GetPageOut))).map (fun q => (q.page_number, q.text)) =
      rs.map (fun r => (r.page_number, r.text)) := by
  induction rs generalizing i with
  | nil => rfl
  | cons r rest ih => simp [mkPages, ih]

theorem mkPages_book_id (bid : Int) (pdf_path : String)
    (rs : List PageResult) (i : Int) :
    ∀ q ∈ mkPages bid pdf_path i rs, q.book_id = bid := by
  induction rs generalizing i with
  | nil => intro q hq; simp [mkPages] at hq
  | cons r rest ih =>
    intro q hq
    rcases List.mem_cons.mp hq with hh | hh
    · subst hh; rfl
    · exact ih (i + 1) q hh

theorem mkPages_mem_page_number (bid : Int) (pdf_path : String)
    (rs : List PageResult) (i : Int) :
    ∀ q ∈ mkPages bid pdf_path i rs, ∃ r ∈ rs, q.page_number = r.page_number := by
  induction rs generalizing i with
  | nil => intro q hq; simp [mkPages] at hq
  | cons r rest ih =>
    intro q hq
    rcases List.mem_cons.mp hq with hh | hh
    · exact ⟨r, List.mem_cons_self _ _, by subst hh; rfl⟩
    · obtain ⟨r2, hr2, hpn⟩ := ih (i + 1) q hh
      exact ⟨r2, List.mem_cons_of_mem r hr2, hpn⟩

theorem mkPages_pairwise (bid : Int) (pdf_path : String)
    (rs : List PageResult) (i : Int)
    (h : rs.Pairwise (fun a b => a.page_number < b.page_number)) :
    (mkPages bid pdf_path i rs).Pairwise
      (fun a b => a.page_number < b.page_number) := by
  induction rs generalizing i with
  | nil => exact List.Pairwise.nil
  | cons r rest ih =>
    have hh := List.pairwise_cons.mp h
    simp only [mkPages]
    refine List.Pairwise.cons ?_ (ih (i + 1) hh.2)
    intro q hq
    obtain ⟨r2, hr2, hpn⟩ := mkPages_mem_page_number bid pdf_path rest (i + 1) q hq
    show r.page_number < q.page_number
    rw [hpn]
    exact hh.1 r2 hr2

theorem insertPage_eq_cons (p : PageRow) (l : List PageRow)
    (h : ∀ q ∈ l, p.page_number < q.page_number) : insertPage p l = p :: l := by
  cases l with
  | nil => rfl
  | cons q rest =>
    unfold insertPage
    rw [if_pos (h q (List.mem_cons_self _ _))]

theorem sortPages_eq_self (l : List PageRow)
    (h : l.Pairwise (fun a b => a.page_number < b.page_number)) :
    sortPages l = l := by
  induction l with
  | nil => rfl
  | cons p rest ih =>
    have hh := List.pairwise_cons.mp h
    simp only [sortPages]
    rw [ih hh.2, insertPage_eq_cons p rest hh.1]

theorem find_append_singleton (l : List BookRow) (nb : BookRow)
    (p : BookRow → Bool) (hnb : p nb = true) :
    ∃ b, (l ++ [nb]).find? p = some b := by
  induction l with
  | nil => exact ⟨nb, by simpa using List.find?_cons_of_pos [] hnb⟩
  | cons a rest ih =>
    by_cases ha : p a = true
    · exact ⟨a, by simpa using List.find?_cons_of_pos (rest ++ [nb]) ha⟩
    · obtain ⟨b, hb⟩ := ih
      exact ⟨b, by rw [List.cons_append, List.find?_cons_of_neg _ ha]; exact hb⟩

/-- C3 (amended): the round-trip holds for an upload into a FRESH book:
when `upload_pdf` is called without `book_id` (so a new book is created)
and no pre-existing page references the new book id, a subsequent
`get_pdf` on the new id returns pages whose `(page_number, text)` sequence
is exactly the one produced by `extract_text_by_page` on the stored file.
For a book that already had pages the round-trip fails (see the
counterexample): `getBook` returns the old pages as well. -/
theorem c3_roundtrip_fresh_book (cfg : Config) (st st1 : Storage) (db : DB)
    (filename : String) (file_bytes : List Nat) (parsed : PdfFile)
    (title author : Option String) (uuid pdf_path : String)
    (results : List PageResult)
    (hfn : strEndsWith filename ".pdf" = true)
    (hsv : save_pdf cfg st file_bytes parsed filename uuid = (st1, .ok pdf_path))
    (hex : extract_text_by_page cfg st1 pdf_path = .ok results)
    (hfresh : ∀ p ∈ db.pages, ¬ p.book_id = db.nextBookId) :
    (upload_pdf cfg st db filename file_bytes parsed none title author uuid
      false false).1 = st1 ∧
    ∃ resp,
      get_pdf (upload_pdf cfg st db filename file_bytes parsed none title
        author uuid false false).2.1 db.nextBookId = .ok resp ∧
      resp.pages.map (fun q => (q.page_number, q.text)) =
        results.map (fun r => (r.page_number, r.text)) := by
  have hrun : upload_pdf cfg st db filename file_bytes parsed none title author
      uuid false false =
      (st1,
        { db with
          books := db.books ++ [newBookRow db filename title author results.length]
          nextBookId := db.nextBookId + 1
          pages := db.pages ++ mkPages db.nextBookId pdf_path db.nextPageId results
          nextPageId := db.nextPageId + results.length },
        .ok (successResponse filename db.nextBookId pdf_path results
          (get_pdf_info st1 pdf_path false))) := by
    unfold upload_pdf
    rw [if_pos hfn, hsv]
    dsimp only
    rw [hex]
    rfl
  refine ⟨by rw [hrun], ?_⟩
  rw [hrun]
  obtain ⟨b, hb⟩ := find_append_singleton db.books
    (newBookRow db filename title author results.length)
    (fun bb => bb.id == db.nextBookId) (by simp [newBookRow])
  have h1 : db.pages.filter (fun p => p.book_id == db.nextBookId) = [] :=
    List.filter_eq_nil_iff.mpr (fun a ha => by simpa using hfresh a ha)
  have h2 : (mkPages db.nextBookId pdf_path db.nextPageId results).filter
      (fun p => p.book_id == db.nextBookId) =
      mkPages db.nextBookId pdf_path db.nextPageId results :=
    List.filter_eq_self.mpr
      (fun a ha => by simpa using mkPages_book_id _ _ _ _ a ha)
  have hfilter : (db.pages ++
      mkPages db.nextBookId pdf_path db.nextPageId results).filter
        (fun p => p.book_id == db.nextBookId) =
      mkPages db.nextBookId pdf_path db.nextPageId results := by
    rw [List.filter_append, h1, h2, List.nil_append]
  have hpw : results.Pairwise (fun a b => a.page_number < b.page_number) := by
    obtain ⟨f, doc, -, -, -, hrs⟩ := extract_ok_inv cfg st1 pdf_path results hex
    rw [hrs]
    exact extractPages_pairwise doc.pages 0
  have hsorted : sortPages (mkPages db.nextBookId pdf_path db.nextPageId results) =
      mkPages db.nextBookId pdf_path db.nextPageId results :=
    sortPages_eq_self _ (mkPages_pairwise _ _ _ _ hpw)
  dsimp only
  unfold get_pdf
  rw [hb]
  dsimp only
  exact ⟨_, rfl, by
    dsimp only
    rw [hfilter, hsorted]
    exact mkPages_map_pairs _ _ _ _⟩

theorem c3_witness :
    strEndsWith "b.pdf" ".pdf" = true ∧
    save_pdf wCfg [] pdfMagic wParsed1 "b.pdf" "u" =
      ([("s/u_b.pdf", wFile1)], .ok "s/u_b.pdf") ∧
    extract_text_by_page wCfg [("s/u_b.pdf", wFile1)] "s/u_b.pdf" =
      .ok (extractPages 0 wDoc1.pages) ∧
    (∀ p ∈ emptyDB.pages, ¬ p.book_id = emptyDB.nextBookId) ∧
    ((upload_pdf wCfg [] emptyDB "b.pdf" pdfMagic wParsed1 none none none "u"
        false false).1 = [("s/u_b.pdf", wFile1)] ∧
      ∃ resp,
        get_pdf (upload_pdf wCfg [] emptyDB "b.pdf" pdfMagic wParsed1 none none
          none "u" false false).2.1 emptyDB.nextBookId = .ok resp ∧
        resp.pages.map (fun q => (q.page_number, q.text)) =
          (extractPages 0 wDoc1.pages).map (fun r => (r.page_number, r.text))) :=
  ⟨by decide, rfl, rfl, by decide,
    c3_roundtrip_fresh_book wCfg [] [("s/u_b.pdf", wFile1)] emptyDB "b.pdf"
      pdfMagic wParsed1 none none "u" "s/u_b.pdf" (extractPages 0 wDoc1.pages)
      (by decide) rfl rfl (by decide)⟩
